import Mathlib

/-!
Verification of the `hcsr04.py` MicroPython driver for the HC-SR04
ultrasonic distance sensor (repository rsc1975/micropython-hcsr04,
version 0.3.0) against its natural-language specification.

Shallow embedding choices:
* Python floats are modelled as real numbers (`ℝ`); temperatures and other
  numeric literals that only flow through comparisons and clamping are
  modelled as rationals (`ℚ`) so that the clamping logic stays executable.
* `machine.time_pulse_us` is an external collaborator: its outcome on a
  given measurement cycle is an explicit environment parameter
  (`TimePulseOutcome`): either a returned integer (negative values are the
  timeout sentinels -1 / -2) or a raised `OSError`.
* Hardware side effects (`trigger.value`, `sleep_us`, `time_pulse_us`) are
  recorded as an explicit action trace (`HWAction`), and methods thread the
  object state `HCSR04` explicitly, returning the (possibly updated) state
  so that frame properties are statable.
* Python `//` on non-negative floats is the floor of the true quotient, and
  `int()` on a non-negative float is the floor; both are modelled with
  `Int.floor`.
* A raised `OSError` is modelled by its first argument `args[0]`
  (the only part the source inspects), which is either a number (an errno)
  or a message string.
-/

/-- First positional argument of a Python `OSError`: either a numeric errno
(as in `OSError(110)`) or a message string (as in `OSError('Out of range')`). -/
inductive OSArg where
  | num (n : Int)
  | str (s : String)
deriving DecidableEq, Repr

/-- Model of a Python `OSError` value, reduced to the first element of its
`args` tuple, which is all that `_send_pulse_and_wait` inspects. -/
structure OSError where
  arg0 : OSArg
deriving DecidableEq, Repr

/-- Outcome of one call to the external primitive `machine.time_pulse_us`:
it either returns an integer number of microseconds (the negative values
-2 and -1 are its timeout sentinels; it does not raise for timeouts) or raises an
`OSError`. -/
inductive TimePulseOutcome where
  | ret (t : Int)
  | osError (e : OSError)
deriving DecidableEq, Repr

/-- A hardware side effect performed by the driver, in program order:
writing the trigger pin (`trigger.value(v)`), busy-waiting
(`utime.sleep_us(n)`), or arming the pulse measurement
(`machine.time_pulse_us(echo, level, timeout)`). -/
inductive HWAction where
  | setTrigger (v : Nat)
  | sleepUs (n : Nat)
  | timePulseUs (level : Nat) (timeout : Int)
deriving DecidableEq, Repr

/-- Source: `DEFAULT_TEMPERATURE=20` (degrees Celsius). -/
def DEFAULT_TEMPERATURE : ℚ := 20

/-- Source: the local constant `MAX_RANGE_IN_CM = const(500)` inside
`_send_pulse_and_wait`. -/
def MAX_RANGE_IN_CM : ℚ := 500

/-- State of one `HCSR04` driver object: the attributes assigned in
`__init__`, in assignment order.  The pin objects are reduced to their pin
identifiers; the current trigger level is captured in the action trace
rather than in the state. -/
structure HCSR04 where
  max_working_temp : ℚ
  min_working_temp : ℚ
  air_temperature : ℚ
  sound_speed : ℝ
  echo_timeout_us : Int
  trigger_pin : Nat
  echo_pin : Nat

/-- Source method `_check_air_temp(self, temperature)`:
`if self.min_working_temp <= temperature <= self.max_working_temp: return
temperature else: return DEFAULT_TEMPERATURE`.  The two `self` fields it
reads are passed explicitly. -/
def check_air_temp (min_working_temp max_working_temp temperature : ℚ) : ℚ :=
  if min_working_temp ≤ temperature ∧ temperature ≤ max_working_temp then
    temperature
  else
    DEFAULT_TEMPERATURE

/-- Source method `_get_sound_speed(self)`:
`ss = 20.05*(sqrt(self.air_temperature+273.15)); ss = ss / 1000; return ss`.
The result is in millimeters per microsecond. -/
noncomputable def get_sound_speed (air_temperature : ℚ) : ℝ :=
  (20.05 * Real.sqrt ((air_temperature : ℝ) + 273.15)) / 1000

/-- Source constructor `__init__(self, trigger_pin, echo_pin,
echo_timeout_us=500*2*30, air_temp=DEFAULT_TEMPERATURE)`: sets the working
temperature bounds, clamps the air temperature, derives the sound speed,
stores the timeout and initialises the two pins. -/
noncomputable def HCSR04.init (trigger_pin echo_pin : Nat) (echo_timeout_us : Int)
    (air_temp : ℚ) : HCSR04 :=
  let max_working_temp : ℚ := 70
  let min_working_temp : ℚ := -15
  let air_temperature := check_air_temp min_working_temp max_working_temp air_temp
  let sound_speed := get_sound_speed air_temperature
  ⟨max_working_temp, min_working_temp, air_temperature, sound_speed,
    echo_timeout_us, trigger_pin, echo_pin⟩

/-- Default value of the `echo_timeout_us` constructor parameter:
`500*2*30` microseconds. -/
def default_echo_timeout_us : Int := 500 * 2 * 30

/-- Source method `_send_pulse_and_wait(self)`.  Returns the trace of
hardware actions in program order, the (unchanged) object state and the
result: the pulse time returned by `time_pulse_us`, with a negative
sentinel replaced by `int(MAX_RANGE_IN_CM * 29.1)`; an `OSError` with
`args[0] == 110` (ETIMEDOUT) is replaced by `OSError('Out of range')` and
any other `OSError` is re-raised unchanged. -/
def send_pulse_and_wait (s : HCSR04) (env : TimePulseOutcome) :
    List HWAction × HCSR04 × Except OSError Int :=
  let trace : List HWAction :=
    [HWAction.setTrigger 0, HWAction.sleepUs 5, HWAction.setTrigger 1,
     HWAction.sleepUs 10, HWAction.setTrigger 0,
     HWAction.timePulseUs 1 s.echo_timeout_us]
  match env with
  | TimePulseOutcome.ret pulse_time =>
      if pulse_time < 0 then
        (trace, s, Except.ok (Int.floor (MAX_RANGE_IN_CM * (29.1 : ℚ))))
      else
        (trace, s, Except.ok pulse_time)
  | TimePulseOutcome.osError ex =>
      if ex.arg0 = OSArg.num 110 then
        (trace, s, Except.error ⟨OSArg.str "Out of range"⟩)
      else
        (trace, s, Except.error ex)

/-- Source method `distance_mm(self)`:
`pulse_time = self._send_pulse_and_wait(); mm = (self.sound_speed *
pulse_time) // 2; return mm`.  The Python result is a float with integral
value; it is modelled by the integer `⌊sound_speed * pulse_time / 2⌋`. -/
noncomputable def distance_mm (s : HCSR04) (env : TimePulseOutcome) :
    HCSR04 × Except OSError Int :=
  let r := send_pulse_and_wait s env
  let s1 := r.2.1
  (s1, r.2.2.map fun (pulse_time : Int) =>
    Int.floor ((s1.sound_speed * (pulse_time : ℝ)) / 2))

/-- Source method `distance_cm(self)`: `return self.distance_mm() / 10`
(true float division, no rounding). -/
noncomputable def distance_cm (s : HCSR04) (env : TimePulseOutcome) :
    HCSR04 × Except OSError ℝ :=
  let r := distance_mm s env
  (r.1, r.2.map fun (mm : Int) => (mm : ℝ) / 10)

/-! ## Helper lemmas shared by several results -/

/-- A concrete driver state used for instance checks.  Its `sound_speed`
field is set to `0` so that floor computations evaluate by `simp`; the
measurement plumbing under test does not depend on that value. -/
noncomputable def testSensor : HCSR04 :=
  ⟨70, -15, 20, 0, 30000, 1, 2⟩

theorem check_air_temp_of_le (lo hi t : ℚ) (h1 : lo ≤ t) (h2 : t ≤ hi) :
    check_air_temp lo hi t = t :=
  if_pos ⟨h1, h2⟩

theorem init_air_temperature_eq (tp ep : Nat) (timeout_us : Int) (t : ℚ) :
    (HCSR04.init tp ep timeout_us t).air_temperature = check_air_temp (-15) 70 t :=
  rfl

theorem init_sound_speed_eq (tp ep : Nat) (timeout_us : Int) (t : ℚ) :
    (HCSR04.init tp ep timeout_us t).sound_speed =
      get_sound_speed (check_air_temp (-15) 70 t) :=
  rfl

theorem send_pulse_state_eq (s : HCSR04) (env : TimePulseOutcome) :
    (send_pulse_and_wait s env).2.1 = s := by
  cases env <;> unfold send_pulse_and_wait <;> dsimp only <;> split <;> rfl

theorem distance_mm_result (s : HCSR04) (env : TimePulseOutcome) :
    (distance_mm s env).2 =
      ((send_pulse_and_wait s env).2.2).map
        (fun pulse_time : Int =>
          Int.floor ((s.sound_speed * (pulse_time : ℝ)) / 2)) := by
  unfold distance_mm
  dsimp only
  rw [send_pulse_state_eq]

theorem send_pulse_ok_nonneg (s : HCSR04) (env : TimePulseOutcome) (p : Int)
    (h : (send_pulse_and_wait s env).2.2 = Except.ok p) : 0 ≤ p := by
  cases env <;> unfold send_pulse_and_wait at h <;> dsimp only at h <;>
    split at h <;> simp only [Except.ok.injEq, reduceCtorEq] at h
  · subst h; norm_num [MAX_RANGE_IN_CM]
  · omega

theorem sqrt_29315_lb : (17.12 : ℝ) ≤ Real.sqrt 293.15 :=
  (Real.le_sqrt (by norm_num) (by norm_num)).mpr (by norm_num)

theorem sqrt_29315_ub : Real.sqrt 293.15 < 17.125 :=
  (Real.sqrt_lt' (by norm_num)).mpr (by norm_num)

theorem get_sound_speed_20_eq :
    get_sound_speed 20 = 20.05 * Real.sqrt 293.15 / 1000 := by
  unfold get_sound_speed
  norm_num

theorem init_20_sound_speed_eq :
    (HCSR04.init 1 2 30000 20).sound_speed = 20.05 * Real.sqrt 293.15 / 1000 := by
  rw [init_sound_speed_eq, check_air_temp_of_le _ _ _ (by norm_num) (by norm_num),
    get_sound_speed_20_eq]

/-! ## Claims -/

/-- Claim C4: temperatures outside [-15, 70] °C supplied at construction are
deterministically replaced by the default 20 °C, and the invalid input never
reaches the speed-of-sound formula; an in-range temperature (bounds
inclusive) is used as supplied. -/
theorem init_clamps_out_of_range_temperature (tp ep : Nat) (timeout_us : Int)
    (t : ℚ) :
    ((t < -15 ∨ 70 < t) →
      (HCSR04.init tp ep timeout_us t).air_temperature = DEFAULT_TEMPERATURE ∧
      (HCSR04.init tp ep timeout_us t).sound_speed =
        get_sound_speed DEFAULT_TEMPERATURE) ∧
    (-15 ≤ t → t ≤ 70 →
      (HCSR04.init tp ep timeout_us t).air_temperature = t ∧
      (HCSR04.init tp ep timeout_us t).sound_speed = get_sound_speed t) := by
  constructor
  · intro h
    have hc : check_air_temp (-15) 70 t = DEFAULT_TEMPERATURE := by
      unfold check_air_temp
      rcases h with h | h <;> rw [if_neg] <;> intro hx
      · linarith [hx.1]
      · linarith [hx.2]
    exact ⟨by rw [init_air_temperature_eq, hc], by rw [init_sound_speed_eq, hc]⟩
  · intro h1 h2
    have hc : check_air_temp (-15) 70 t = t := check_air_temp_of_le _ _ _ h1 h2
    exact ⟨by rw [init_air_temperature_eq, hc], by rw [init_sound_speed_eq, hc]⟩

/-- Instance check for C4: the clamp at 100 °C (out of range) and at
25 °C (in range). -/
theorem init_clamps_out_of_range_temperature_witness :
    (HCSR04.init 1 2 30000 100).air_temperature = DEFAULT_TEMPERATURE ∧
    (HCSR04.init 1 2 30000 25).air_temperature = 25 :=
  ⟨((init_clamps_out_of_range_temperature 1 2 30000 100).1
      (Or.inr (by norm_num))).1,
   ((init_clamps_out_of_range_temperature 1 2 30000 25).2
      (by norm_num) (by norm_num)).1⟩

/-- Claim C5: at construction, the sound speed equals
`20.05 * sqrt(validated_temperature + 273.15)` divided by 1000
(millimeters per microsecond), computed from the stored validated
temperature. -/
theorem init_sound_speed_formula (tp ep : Nat) (timeout_us : Int) (t : ℚ) :
    (HCSR04.init tp ep timeout_us t).sound_speed =
      20.05 * Real.sqrt
        (((HCSR04.init tp ep timeout_us t).air_temperature : ℝ) + 273.15)
        / 1000 :=
  rfl

/-- Claim C3: an `OSError` with errno 110 (ETIMEDOUT) raised by the
measurement primitive is translated into a distinct `OSError('Out of
range')`; any other `OSError` propagates unchanged. -/
theorem send_pulse_oserror_translation (s : HCSR04) (e : OSError) :
    (e.arg0 = OSArg.num 110 →
      (send_pulse_and_wait s (TimePulseOutcome.osError e)).2.2 =
        Except.error ⟨OSArg.str "Out of range"⟩) ∧
    (e.arg0 ≠ OSArg.num 110 →
      (send_pulse_and_wait s (TimePulseOutcome.osError e)).2.2 =
        Except.error e) := by
  constructor <;> intro h <;> simp [send_pulse_and_wait, h]

/-- Instance check for C3: errno 110 becomes `Out of range`; errno 5
propagates unchanged. -/
theorem send_pulse_oserror_translation_witness :
    (send_pulse_and_wait testSensor
        (TimePulseOutcome.osError ⟨OSArg.num 110⟩)).2.2 =
      Except.error ⟨OSArg.str "Out of range"⟩ ∧
    (send_pulse_and_wait testSensor
        (TimePulseOutcome.osError ⟨OSArg.num 5⟩)).2.2 =
      Except.error ⟨OSArg.num 5⟩ :=
  ⟨(send_pulse_oserror_translation testSensor ⟨OSArg.num 110⟩).1 rfl,
   (send_pulse_oserror_translation testSensor ⟨OSArg.num 5⟩).2 (by decide)⟩

/-- Claim C8: every measurement cycle performs, in program order: trigger
low, hold 5 µs (≥ 5), trigger high, hold 10 µs, trigger low, and only then
the bounded pulse measurement on the echo line — whatever the measurement
outcome is. -/
theorem send_pulse_protocol_order (s : HCSR04) (env : TimePulseOutcome) :
    (send_pulse_and_wait s env).1 =
      [HWAction.setTrigger 0, HWAction.sleepUs 5, HWAction.setTrigger 1,
       HWAction.sleepUs 10, HWAction.setTrigger 0,
       HWAction.timePulseUs 1 s.echo_timeout_us] := by
  cases env <;> unfold send_pulse_and_wait <;> dsimp only <;> split <;> rfl

/-- Claim C9: the sound speed is derived exactly once, at construction,
from the validated temperature, and no measurement operation modifies the
driver state (in particular `sound_speed`, `air_temperature` and
`echo_timeout_us` are untouched by `distance_mm` and `distance_cm`). -/
theorem driver_state_immutable (s : HCSR04) (env : TimePulseOutcome)
    (tp ep : Nat) (timeout_us : Int) (t : ℚ) :
    (send_pulse_and_wait s env).2.1 = s ∧
    (distance_mm s env).1 = s ∧
    (distance_cm s env).1 = s ∧
    (HCSR04.init tp ep timeout_us t).sound_speed =
      get_sound_speed ((HCSR04.init tp ep timeout_us t).air_temperature) := by
  have h1 : (send_pulse_and_wait s env).2.1 = s := send_pulse_state_eq s env
  have h2 : (distance_mm s env).1 = s := by
    unfold distance_mm; dsimp only; exact h1
  have h3 : (distance_cm s env).1 = s := by
    unfold distance_cm; dsimp only; exact h2
  exact ⟨h1, h2, h3, rfl⟩

theorem get_sound_speed_strictMono (t1 t2 : ℚ) (h0 : -15 ≤ t1) (h : t1 < t2) :
    get_sound_speed t1 < get_sound_speed t2 := by
  unfold get_sound_speed
  have hc : (t1 : ℝ) < (t2 : ℝ) := by exact_mod_cast h
  have h0c : (-15 : ℝ) ≤ (t1 : ℝ) := by exact_mod_cast h0
  have h0x : (0 : ℝ) ≤ (t1 : ℝ) + 273.15 := by linarith
  have hlt : (t1 : ℝ) + 273.15 < (t2 : ℝ) + 273.15 := by linarith
  have hs := Real.sqrt_lt_sqrt h0x hlt
  have h1000 : (0 : ℝ) < 1000 := by norm_num
  exact (div_lt_div_iff_of_pos_right h1000).mpr
    ((mul_lt_mul_left (by norm_num)).mpr hs)

/-- Claim C6: over the working range, the derived sound speed is strictly
increasing in the construction temperature: for -15 ≤ t1 < t2 ≤ 70, the
sensor built at t1 has a strictly smaller `sound_speed` than the sensor
built at t2. -/
theorem init_sound_speed_strict_mono (tp ep : Nat) (timeout_us : Int)
    (t1 t2 : ℚ) (ha : -15 ≤ t1) (hb : t1 < t2) (hc : t2 ≤ 70) :
    (HCSR04.init tp ep timeout_us t1).sound_speed <
      (HCSR04.init tp ep timeout_us t2).sound_speed := by
  rw [init_sound_speed_eq, init_sound_speed_eq,
    check_air_temp_of_le _ _ _ ha (le_trans (le_of_lt hb) hc),
    check_air_temp_of_le _ _ _ (le_trans ha (le_of_lt hb)) hc]
  exact get_sound_speed_strictMono t1 t2 ha hb

/-- Instance check for C6 at t1 = 0 °C and t2 = 20 °C. -/
theorem init_sound_speed_strict_mono_witness :
    (HCSR04.init 1 2 30000 0).sound_speed <
      (HCSR04.init 1 2 30000 20).sound_speed :=
  init_sound_speed_strict_mono 1 2 30000 0 20 (by norm_num) (by norm_num)
    (by norm_num)

/-- Claim C7: for every measurement outcome, `distance_cm` returns exactly
`distance_mm / 10` — a successful millimeter reading is divided by 10 with
no rounding, and an error outcome is passed through identically. -/
theorem distance_cm_is_mm_div_ten (s : HCSR04) (env : TimePulseOutcome) :
    (∀ mm : Int, (distance_mm s env).2 = Except.ok mm →
      (distance_cm s env).2 = Except.ok ((mm : ℝ) / 10)) ∧
    (∀ e : OSError, (distance_mm s env).2 = Except.error e →
      (distance_cm s env).2 = Except.error e) := by
  constructor <;> intro x hx <;> unfold distance_cm <;> dsimp only <;>
    rw [hx] <;> rfl

/-- Instance check for C7: a 0 mm reading becomes 0/10 cm, and an
`Out of range` error is passed through. -/
theorem distance_cm_is_mm_div_ten_witness :
    (distance_cm testSensor (TimePulseOutcome.ret 100)).2 =
      Except.ok (((0 : Int) : ℝ) / 10) ∧
    (distance_cm testSensor
        (TimePulseOutcome.osError ⟨OSArg.num 110⟩)).2 =
      Except.error ⟨OSArg.str "Out of range"⟩ :=
  ⟨(distance_cm_is_mm_div_ten testSensor (TimePulseOutcome.ret 100)).1 0
      (by simp [distance_mm_result, send_pulse_and_wait, testSensor,
        Except.map]),
   (distance_cm_is_mm_div_ten testSensor
        (TimePulseOutcome.osError ⟨OSArg.num 110⟩)).2
      ⟨OSArg.str "Out of range"⟩
      (by simp [distance_mm_result, send_pulse_and_wait, Except.map])⟩

/-- Claim C10: every successful `distance_mm` value is the floor of
`sound_speed * pulse / 2`: an integer-valued reading that never exceeds the
exact quotient and undershoots it by strictly less than 1 mm. -/
theorem distance_mm_is_floor (s : HCSR04) (env : TimePulseOutcome)
    (p mm : Int)
    (hp : (send_pulse_and_wait s env).2.2 = Except.ok p)
    (hmm : (distance_mm s env).2 = Except.ok mm) :
    mm = Int.floor (s.sound_speed * (p : ℝ) / 2) ∧
    (mm : ℝ) ≤ s.sound_speed * (p : ℝ) / 2 ∧
    s.sound_speed * (p : ℝ) / 2 < (mm : ℝ) + 1 := by
  rw [distance_mm_result, hp] at hmm
  simp only [Except.map, Except.ok.injEq] at hmm
  subst hmm
  exact ⟨rfl, Int.floor_le _, Int.lt_floor_add_one _⟩

/-- Instance check for C10 at `testSensor` (sound speed 0) and pulse
100 µs: the reading 0 is the floor of the exact quotient 0 and brackets
it within 1 mm. -/
theorem distance_mm_is_floor_witness :
    (0 : Int) = Int.floor (testSensor.sound_speed * ((100 : Int) : ℝ) / 2) ∧
    ((0 : Int) : ℝ) ≤ testSensor.sound_speed * ((100 : Int) : ℝ) / 2 ∧
    testSensor.sound_speed * ((100 : Int) : ℝ) / 2 < ((0 : Int) : ℝ) + 1 :=
  distance_mm_is_floor testSensor (TimePulseOutcome.ret 100) 100 0 rfl
    (by simp [distance_mm_result, send_pulse_and_wait, testSensor,
      Except.map])

/-- Claim C1 (refuted; code bug): on the timeout sentinel the code does
substitute the synthetic pulse `int(500 * 29.1) = 14550` µs and the
distance calls return deterministically without raising — but because
`distance_mm` halves the pulse for the round trip, the reading is
2497 mm ≈ 249.7 cm, inside the normal measuring range and far below the
400–460 cm maximum-range equivalent that the claim (and the code's own
`MAX_RANGE_IN_CM = 500` comment) promises. -/
theorem timeout_substitution_underestimates_range :
    (send_pulse_and_wait (HCSR04.init 1 2 30000 20)
        (TimePulseOutcome.ret (-1))).2.2 = Except.ok 14550 ∧
    (distance_mm (HCSR04.init 1 2 30000 20)
        (TimePulseOutcome.ret (-1))).2 = Except.ok 2497 ∧
    (distance_cm (HCSR04.init 1 2 30000 20)
        (TimePulseOutcome.ret (-1))).2 = Except.ok ((2497 : ℝ) / 10) ∧
    (2497 : ℝ) / 10 < 400 := by
  have hsp : (send_pulse_and_wait (HCSR04.init 1 2 30000 20)
      (TimePulseOutcome.ret (-1))).2.2 = Except.ok 14550 := by
    unfold send_pulse_and_wait
    norm_num [MAX_RANGE_IN_CM]
  have hfl : Int.floor ((HCSR04.init 1 2 30000 20).sound_speed *
      ((14550 : Int) : ℝ) / 2) = 2497 := by
    rw [init_20_sound_speed_eq, Int.floor_eq_iff]
    constructor
    · push_cast
      nlinarith [sqrt_29315_lb]
    · push_cast
      nlinarith [sqrt_29315_ub]
  have hdm : (distance_mm (HCSR04.init 1 2 30000 20)
      (TimePulseOutcome.ret (-1))).2 = Except.ok 2497 := by
    rw [distance_mm_result, hsp]
    simp only [Except.map]
    rw [hfl]
  have hdc : (distance_cm (HCSR04.init 1 2 30000 20)
      (TimePulseOutcome.ret (-1))).2 = Except.ok ((2497 : ℝ) / 10) := by
    unfold distance_cm
    dsimp only
    rw [hdm]
    simp only [Except.map, Except.ok.injEq]
    norm_num
  exact ⟨hsp, hdm, hdc, by norm_num⟩

/-- Counterexample to claim C2 as stated: at 20 °C with a 1000 µs pulse the
driver returns 171 mm, while the exact quotient
`sound_speed * 1000 / 2` is strictly greater than 171 (about 171.65 mm):
the code floors, so `distance_mm` is not equal to the exact quotient. -/
theorem distance_mm_not_exact_quotient :
    (distance_mm (HCSR04.init 1 2 30000 20)
        (TimePulseOutcome.ret 1000)).2 = Except.ok 171 ∧
    ((171 : ℝ) ≠
      (HCSR04.init 1 2 30000 20).sound_speed * ((1000 : Int) : ℝ) / 2) := by
  have hsp : (send_pulse_and_wait (HCSR04.init 1 2 30000 20)
      (TimePulseOutcome.ret 1000)).2.2 = Except.ok 1000 := by
    unfold send_pulse_and_wait
    norm_num
  have hlb : (171 : ℝ) <
      (HCSR04.init 1 2 30000 20).sound_speed * ((1000 : Int) : ℝ) / 2 := by
    rw [init_20_sound_speed_eq]
    push_cast
    nlinarith [sqrt_29315_lb]
  have hfl : Int.floor ((HCSR04.init 1 2 30000 20).sound_speed *
      ((1000 : Int) : ℝ) / 2) = 171 := by
    rw [init_20_sound_speed_eq, Int.floor_eq_iff]
    constructor
    · push_cast
      nlinarith [sqrt_29315_lb]
    · push_cast
      nlinarith [sqrt_29315_ub]
  refine ⟨?_, ne_of_lt hlb⟩
  rw [distance_mm_result, hsp]
  simp only [Except.map]
  rw [hfl]

/-- Claim C2 (amended): for every successful measurement, `distance_mm`
returns the floor of `(sound_speed * p) / 2` — non-negative whenever the
sound speed is — and at 20 °C with p = 1000 µs it returns 171 mm, the
floor of an exact quotient lying in [171, 172) (so within 1 mm of the
spec's expected ≈171.5). -/
theorem distance_mm_floored_quotient :
    (∀ (s : HCSR04) (env : TimePulseOutcome) (p mm : Int),
      0 ≤ s.sound_speed →
      (send_pulse_and_wait s env).2.2 = Except.ok p →
      (distance_mm s env).2 = Except.ok mm →
      mm = Int.floor (s.sound_speed * (p : ℝ) / 2) ∧ 0 ≤ mm) ∧
    (distance_mm (HCSR04.init 1 2 30000 20)
        (TimePulseOutcome.ret 1000)).2 = Except.ok 171 ∧
    (171 : ℝ) ≤ (HCSR04.init 1 2 30000 20).sound_speed * 1000 / 2 ∧
    (HCSR04.init 1 2 30000 20).sound_speed * 1000 / 2 < 172 := by
  refine ⟨?_, ?_, ?_, ?_⟩
  · intro s env p mm hss hp hmm
    rw [distance_mm_result, hp] at hmm
    simp only [Except.map, Except.ok.injEq] at hmm
    subst hmm
    refine ⟨rfl, ?_⟩
    have hp0 : (0 : ℝ) ≤ (p : ℝ) := by
      exact_mod_cast send_pulse_ok_nonneg s env p hp
    exact Int.floor_nonneg.mpr (by positivity)
  · have hsp : (send_pulse_and_wait (HCSR04.init 1 2 30000 20)
        (TimePulseOutcome.ret 1000)).2.2 = Except.ok 1000 := by
      unfold send_pulse_and_wait
      norm_num
    have hfl : Int.floor ((HCSR04.init 1 2 30000 20).sound_speed *
        ((1000 : Int) : ℝ) / 2) = 171 := by
      rw [init_20_sound_speed_eq, Int.floor_eq_iff]
      constructor
      · push_cast
        nlinarith [sqrt_29315_lb]
      · push_cast
        nlinarith [sqrt_29315_ub]
    rw [distance_mm_result, hsp]
    simp only [Except.map]
    rw [hfl]
  · rw [init_20_sound_speed_eq]
    nlinarith [sqrt_29315_lb]
  · rw [init_20_sound_speed_eq]
    nlinarith [sqrt_29315_ub]

/-- Instance check for C2 (amended), at a driver state with sound speed 0
and a 100 µs pulse: the reading is the floor of the exact quotient and
non-negative. -/
theorem distance_mm_floored_quotient_witness :
    (0 : Int) = Int.floor (testSensor.sound_speed * ((100 : Int) : ℝ) / 2) ∧
    (0 : Int) ≤ 0 :=
  distance_mm_floored_quotient.1 testSensor (TimePulseOutcome.ret 100) 100 0
    (le_refl 0) rfl
    (by simp [distance_mm_result, send_pulse_and_wait, testSensor,
      Except.map])
